import Mathlib

/-!
Shallow embedding of `src/main.py` (openai-weather): a tool-dispatch loop
that routes a natural-language query to one of two leaf lookup functions
(`get_weather_forecast`, `get_ip_address`) via an LLM function-calling
response, plus the leaf functions themselves.

External collaborators (the OpenAI chat API, the Nominatim geocoder, the
NWS HTTP endpoints, DNS resolution via `socket.gethostbyname`, and the
library routine `json.loads`) are modelled as oracle fields of an `Env`
record: each oracle returns `Except String α`, where `Except.error e`
models the library call raising a Python exception whose `str()` is `e`.
Python values decoded from JSON are modelled by the `Json` inductive;
Python control flow (`if`/`try`) becomes `match` on these results.
-/

namespace WeatherApp

/-- JSON-decoded Python values (`json.loads` output, HTTP `.json()` payloads). -/
inductive Json where
  | null
  | bool (b : Bool)
  | num (n : Int)
  | str (s : String)
  | arr (elems : List Json)
  | obj (fields : List (String × Json))
deriving Repr

/-- Python `d[key]` on a decoded-JSON value, as an `Option` (for the callers
that catch the failure wholesale). `none` models the raised `KeyError` /
`TypeError`. -/
def Json.getField : Json → String → Option Json
  | .obj fields, key => fields.lookup key
  | _, _ => none

/-- Python truthiness (`if x:`) of a decoded-JSON value. -/
def Json.truthy : Json → Bool
  | .null => false
  | .bool b => b
  | .num n => n != 0
  | .str s => !s.isEmpty
  | .arr xs => !xs.isEmpty
  | .obj fs => !fs.isEmpty

mutual

/-- Python `repr()` of a decoded-JSON value (used for values nested inside
containers when the container is rendered in an f-string). -/
def pyRepr : Json → String
  | .null => "None"
  | .bool b => if b then "True" else "False"
  | .num n => toString n
  | .str s => "'" ++ s ++ "'"
  | .arr xs => "[" ++ String.intercalate ", " (pyReprList xs) ++ "]"
  | .obj fs => "\x7b" ++ String.intercalate ", " (pyReprFields fs) ++ "\x7d"

/-- `repr()` of each element of a Python list. -/
def pyReprList : List Json → List String
  | [] => []
  | x :: xs => pyRepr x :: pyReprList xs

/-- `repr()` of each `key: value` entry of a Python dict (JSON keys are strings). -/
def pyReprFields : List (String × Json) → List String
  | [] => []
  | (k, v) :: fs => ("'" ++ k ++ "': " ++ pyRepr v) :: pyReprFields fs

end

/-- Python `str()` of a decoded-JSON value, as used by f-string interpolation. -/
def pyStr : Json → String
  | .str s => s
  | j => pyRepr j

/-- Python `d[key]` where a failure is an exception carrying its `str()`
message: `KeyError('key')` prints as `'key'`; subscripting a non-dict by a
string raises `TypeError`. -/
def dictGet (j : Json) (key : String) : Except String Json :=
  match j with
  | .obj fields =>
    match fields.lookup key with
    | some v => Except.ok v
    | none => Except.error ("'" ++ key ++ "'")
  | _ => Except.error "TypeError: value is not subscriptable by a string"

/-- `location.latitude` / `location.longitude` of a geocoder match.  The
source carries floats; they are never computed with, only interpolated into
a URL and passed along, so the embedding carries their decimal rendering. -/
structure Coordinates where
  latitude : String
  longitude : String
deriving Repr, DecidableEq

/-- `tool_call.function` of an OpenAI tool call: a tool name and a JSON-text
argument payload. -/
structure FunctionCall where
  name : String
  arguments : String
deriving Repr, DecidableEq

/-- One tool call of an OpenAI chat response. -/
structure ToolCall where
  function : FunctionCall
deriving Repr, DecidableEq

/-- `response.choices[i].message`: `tool_calls` is `None` or a list;
`content` is `None` or a string. -/
structure ChatMessage where
  tool_calls : Option (List ToolCall)
  content : Option String
deriving Repr, DecidableEq

/-- One element of `response.choices`. -/
structure Choice where
  message : ChatMessage
deriving Repr, DecidableEq

/-- An OpenAI chat-completion response. -/
structure ChatResponse where
  choices : List Choice
deriving Repr, DecidableEq

/-- The external world: every library call `src/main.py` makes, as oracles.
`Except.error e` models the call raising an exception with `str()` = `e`.
* `geocode q` — `Nominatim(...).geocode(q)`: a best match, or `none`, or a raise;
* `httpGetJson url` — `requests.get(url)` + `raise_for_status()` + `.json()`;
* `gethostbyname h` — `socket.gethostbyname(h)`;
* `chat q` — `openai.chat.completions.create(...)` for user content `q`
  with the fixed system message and `TOOLS`;
* `jsonLoads s` — `json.loads(s)`. -/
structure Env where
  geocode : String → Except String (Option Coordinates)
  httpGetJson : String → Except String Json
  gethostbyname : String → Except String String
  chat : String → Except String ChatResponse
  jsonLoads : String → Except String Json

/-- `get_coordinates` (main.py lines 50–58): geocode `"{city}, {state}, USA"`;
a geocoder match yields its latitude/longitude dict, no match yields `None`.
There is no `try` here: a raise from the geocoder propagates. -/
def get_coordinates (env : Env) (city state : String) :
    Except String (Option Coordinates) :=
  match env.geocode (city ++ ", " ++ state ++ ", USA") with
  | Except.error e => Except.error e
  | Except.ok none => Except.ok none
  | Except.ok (some location) =>
      Except.ok (some { latitude := location.latitude, longitude := location.longitude })

/-- `get_forecast` (main.py lines 61–79): fetch the NWS points payload, read
`["properties"]["forecast"]` as the forecast URL, fetch it.  The whole body
is inside `try: ... except Exception: return None`, so every raise (HTTP
error, bad status, missing key, non-string URL) becomes `none`. -/
def get_forecast (env : Env) (latitude longitude : String) : Option Json :=
  let attempt : Except String Json :=
    match env.httpGetJson ("https://api.weather.gov/points/" ++ latitude ++ "," ++ longitude) with
    | Except.error e => Except.error e
    | Except.ok point_data =>
      match dictGet point_data "properties" with
      | Except.error e => Except.error e
      | Except.ok props =>
        match dictGet props "forecast" with
        | Except.error e => Except.error e
        | Except.ok (Json.str forecast_url) => env.httpGetJson forecast_url
        | Except.ok _ =>
            -- `requests.get` raises on a non-string URL; caught below.
            Except.error "TypeError: url must be a string"
  match attempt with
  | Except.ok j => some j
  | Except.error _ => none

/-- Python `str()`-rendered block for one forecast period (the four
`response +=` lines of main.py 98–103); a missing key raises `KeyError`.
The source file's temperature line contains the literal two-character
sequence `Â°` (mojibake preserved byte-for-byte). -/
def formatPeriod (period : Json) : Except String String := do
  let n ← dictGet period "name"
  let t ← dictGet period "temperature"
  let u ← dictGet period "temperatureUnit"
  let c ← dictGet period "shortForecast"
  let ws ← dictGet period "windSpeed"
  let wd ← dictGet period "windDirection"
  pure (pyStr n ++ ":\n" ++
        "Temperature: " ++ pyStr t ++ "Â°" ++ pyStr u ++ "\n" ++
        "Conditions: " ++ pyStr c ++ "\n" ++
        "Wind: " ++ pyStr ws ++ " " ++ pyStr wd ++ "\n\n")

/-- The `for period in periods:` accumulation loop of main.py 97–103. -/
def formatPeriods : List Json → Except String String
  | [] => Except.ok ""
  | p :: ps => do
    let block ← formatPeriod p
    let rest ← formatPeriods ps
    pure (block ++ rest)

/-- `get_weather_forecast` (main.py lines 82–105).  No `try` of its own:
a raise from geocoding, or a `KeyError`/`TypeError` while reading
`forecast["properties"]["periods"][:3]` or a period's fields, propagates
to the caller (`Except.error`). -/
def get_weather_forecast (env : Env) (city state : String) : Except String String :=
  match get_coordinates env city state with
  | Except.error e => Except.error e
  | Except.ok coords =>
    match coords with
    | none => Except.ok ("Could not find coordinates for " ++ city ++ ", " ++ state)
    | some coords =>
      match get_forecast env coords.latitude coords.longitude with
      | none => Except.ok ("Could not get forecast for " ++ city ++ ", " ++ state)
      | some forecast =>
        -- `if not forecast:` also treats a falsy (empty) payload as missing.
        if forecast.truthy = false then
          Except.ok ("Could not get forecast for " ++ city ++ ", " ++ state)
        else
          match dictGet forecast "properties" with
          | Except.error e => Except.error e
          | Except.ok props =>
            match dictGet props "periods" with
            | Except.error e => Except.error e
            | Except.ok periodsJson =>
              match periodsJson with
              | Json.arr allPeriods =>
                match formatPeriods (allPeriods.take 3) with
                | Except.error e => Except.error e
                | Except.ok body =>
                    Except.ok ("Weather forecast for " ++ city ++ ", " ++ state ++
                               ":\n\n" ++ body)
              | Json.str s =>
                -- Python slices a string; an empty slice skips the loop, a
                -- non-empty one raises subscripting a 1-char string by a name.
                if s.isEmpty then
                  Except.ok ("Weather forecast for " ++ city ++ ", " ++ state ++ ":\n\n")
                else
                  Except.error "TypeError: string indices must be integers"
              | _ => Except.error "TypeError: unhashable type: 'slice'"

/-- `get_ip_address` (main.py lines 108–114): resolve or report the error;
the whole body is inside `try`/`except`, so it always returns a string. -/
def get_ip_address (env : Env) (hostname : String) : String :=
  match env.gethostbyname hostname with
  | Except.ok ip_address => "The IP address of " ++ hostname ++ " is " ++ ip_address
  | Except.error e => "Error getting IP address for " ++ hostname ++ ": " ++ e

/-- The per-tool-call branch of `process_weather_query` (main.py lines
137–149): read the name, `json.loads` the argument payload, dispatch on the
name.  A raise from `json.loads`, from a missing argument key, or from
`get_weather_forecast` propagates (to be caught by the top-level handler).
JSON-decoded argument values are only ever consumed through f-string
interpolation in the leaves, so the embedding passes their `str()`
rendering. -/
def handle_tool_call (env : Env) (tool_call : ToolCall) : Except String String :=
  let function_name := tool_call.function.name
  match env.jsonLoads tool_call.function.arguments with
  | Except.error e => Except.error e
  | Except.ok function_args =>
    if function_name = "get_weather_forecast" then
      match dictGet function_args "city" with
      | Except.error e => Except.error e
      | Except.ok city =>
        match dictGet function_args "state" with
        | Except.error e => Except.error e
        | Except.ok state => get_weather_forecast env (pyStr city) (pyStr state)
    else if function_name = "get_ip_address" then
      match dictGet function_args "hostname" with
      | Except.error e => Except.error e
      | Except.ok hostname => Except.ok (get_ip_address env (pyStr hostname))
    else
      Except.ok ("Unknown function: " ++ function_name)

/-- The `try`-block body of `process_weather_query` (main.py lines 120–154):
everything that can raise, with the raise surfaced as `Except.error`.
`response.choices[0]` raises `IndexError` on an empty list;
`if ...tool_calls:` is falsy for both `None` and `[]`, in which case the
returned value is `message.content` — possibly `None` (`Option String`). -/
def process_weather_query_body (env : Env) (query : String) :
    Except String (Option String) :=
  match env.chat query with
  | Except.error e => Except.error e
  | Except.ok response =>
    match response.choices.head? with
    | none => Except.error "list index out of range"
    | some choice =>
      match choice.message.tool_calls with
      | some (tool_call :: _) =>
        match handle_tool_call env tool_call with
        | Except.error e => Except.error e
        | Except.ok result => Except.ok (some result)
      | _ => Except.ok choice.message.content

/-- `process_weather_query` (main.py lines 117–157): the `try` body with its
`except Exception as e: return f"Error processing weather query: {e}"`. -/
def process_weather_query (env : Env) (query : String) : Option String :=
  match process_weather_query_body env query with
  | Except.ok result => result
  | Except.error e => some ("Error processing weather query: " ++ e)

/-! Concrete environments used to instantiate the theorems. -/

/-- A base environment: geocoding finds no match, every other upstream call
fails the way the corresponding Python library fails. -/
def env0 : Env where
  geocode := fun _ => Except.ok none
  httpGetJson := fun _ => Except.error "ConnectionError"
  gethostbyname := fun _ => Except.error "[Errno -2] Name or service not known"
  chat := fun _ => Except.error "APIConnectionError"
  jsonLoads := fun _ => Except.error "Expecting value: line 1 column 1 (char 0)"

/-- `env0` with DNS resolution succeeding. -/
def envDns : Env :=
  { env0 with gethostbyname := fun _ => Except.ok "127.0.0.1" }

/-- `env0` with a different chat oracle but the same lookup oracles. -/
def envAltChat : Env :=
  { env0 with chat := fun _ => Except.error "RateLimitError" }

/-- A request for the unregistered tool `get_time` with payload `\x7b\x7d`. -/
def tcUnknown : ToolCall :=
  { function := { name := "get_time", arguments := "\x7b\x7d" } }

/-- A message requesting the unregistered tool. -/
def msgUnknownTool : ChatMessage := { tool_calls := some [tcUnknown], content := none }

/-- A chat response whose first (and only) choice requests an unregistered
tool with a well-formed argument payload. -/
def respUnknownTool : ChatResponse := { choices := [{ message := msgUnknownTool }] }

/-- `env0` with the model requesting the unregistered tool and the payload
parsing to the empty object. -/
def envUnknownTool : Env :=
  { env0 with chat := fun _ => Except.ok respUnknownTool,
              jsonLoads := fun _ => Except.ok (Json.obj []) }

/-- A plain text reply and no tool calls. -/
def msgPlain : ChatMessage := { tool_calls := none, content := some "Hello!" }

/-- A chat response carrying a plain text reply and no tool calls. -/
def respPlain : ChatResponse := { choices := [{ message := msgPlain }] }

/-- An empty tool-call list and a `None` content. -/
def msgNullReply : ChatMessage := { tool_calls := some [], content := none }

/-- A chat response with an empty tool-call list and a `None` content. -/
def respNullReply : ChatResponse := { choices := [{ message := msgNullReply }] }

/-- `env0` with the model replying in plain text. -/
def envPlain : Env := { env0 with chat := fun _ => Except.ok respPlain }

/-- `env0` with the model returning an empty tool-call list and null content. -/
def envNullReply : Env := { env0 with chat := fun _ => Except.ok respNullReply }

/-- A request for `get_ip_address` on `example.com`. -/
def tcIp : ToolCall :=
  { function := { name := "get_ip_address",
                  arguments := "\x7b\x22hostname\x22: \x22example.com\x22\x7d" } }

/-- A second requested call, which the dispatcher must ignore. -/
def tcExtra : ToolCall :=
  { function := { name := "get_weather_forecast",
                  arguments := "\x7b\x22city\x22: \x22Seattle\x22, \x22state\x22: \x22WA\x22\x7d" } }

/-- A message requesting two tool calls. -/
def msgTwoCalls : ChatMessage := { tool_calls := some [tcIp, tcExtra], content := none }

/-- A chat response requesting `get_ip_address` first and a second call
after it. -/
def respTwoCalls : ChatResponse := { choices := [{ message := msgTwoCalls }] }

/-- `envDns` with the model requesting two tool calls and the payload of the
first parsing to a hostname object. -/
def envTwoCalls : Env :=
  { envDns with chat := fun _ => Except.ok respTwoCalls,
                jsonLoads := fun _ =>
                  Except.ok (Json.obj [("hostname", Json.str "example.com")]) }

/-- A request for `get_weather_forecast` whose argument payload is not valid
JSON (a bare `\x7b\x22city\x22`). -/
def tcBadArgs : ToolCall :=
  { function := { name := "get_weather_forecast", arguments := "\x7b\x22city\x22" } }

/-- A message requesting a registered tool with a malformed payload. -/
def msgBadArgs : ChatMessage := { tool_calls := some [tcBadArgs], content := none }

/-- A chat response requesting a registered tool with a malformed payload. -/
def respBadArgs : ChatResponse := { choices := [{ message := msgBadArgs }] }

/-- `env0` with the model requesting a tool whose payload fails `json.loads`. -/
def envBadArgs : Env := { env0 with chat := fun _ => Except.ok respBadArgs }

/-- `env0` with the geocoder raising (e.g. a network timeout). -/
def envGeoRaises : Env :=
  { env0 with geocode := fun _ => Except.error "ConnectionTimedOut" }

/-- An NWS points payload: `properties.forecast` holds the forecast URL. -/
def pointsPayload : Json :=
  Json.obj [("properties",
    Json.obj [("forecast",
      Json.str "https://api.weather.gov/gridpoints/SEW/124,67/forecast")])]

/-- `env0` with geocoding succeeding and every HTTP fetch answering with the
points payload — so the fetched forecast payload is truthy but carries no
`periods` under `properties`. -/
def envBadPayload : Env :=
  { env0 with
      geocode := fun _ => Except.ok (some { latitude := "47.6", longitude := "-122.33" }),
      httpGetJson := fun _ => Except.ok pointsPayload }

/-- Does the forecast payload carry `properties.periods` as a list whose
first three entries all render? (The structure `get_weather_forecast`
dereferences without a `try`.) -/
def forecastRenderable (j : Json) : Bool :=
  match dictGet j "properties" with
  | Except.error _ => false
  | Except.ok props =>
    match dictGet props "periods" with
    | Except.error _ => false
    | Except.ok (Json.arr ps) =>
      match formatPeriods (ps.take 3) with
      | Except.ok _ => true
      | Except.error _ => false
    | Except.ok _ => false

/-- One forecast period as the spec describes it: name, temperature,
temperature unit, short conditions description, wind speed, wind direction. -/
structure PeriodData where
  name : String
  temperature : Int
  temperatureUnit : String
  shortForecast : String
  windSpeed : String
  windDirection : String
deriving Repr

/-- The JSON object the NWS payload carries for one period. -/
def periodJson (p : PeriodData) : Json :=
  Json.obj [("name", Json.str p.name),
            ("temperature", Json.num p.temperature),
            ("temperatureUnit", Json.str p.temperatureUnit),
            ("shortForecast", Json.str p.shortForecast),
            ("windSpeed", Json.str p.windSpeed),
            ("windDirection", Json.str p.windDirection)]

/-- Modelled from the spec's rendering description (§4.3(c)): one period's
block — period name, temperature with its unit, short conditions
description, wind speed and direction — ending in the blank-line separator. -/
def specPeriodBlock (p : PeriodData) : String :=
  p.name ++ ":\n" ++
  "Temperature: " ++ toString p.temperature ++ "Â°" ++ p.temperatureUnit ++ "\n" ++
  "Conditions: " ++ p.shortForecast ++ "\n" ++
  "Wind: " ++ p.windSpeed ++ " " ++ p.windDirection ++ "\n\n"

/-- Spec-side concatenation of period blocks, in upstream order. -/
def specBlocksConcat : List PeriodData → String
  | [] => ""
  | p :: ps => specPeriodBlock p ++ specBlocksConcat ps

/-- Four sample periods; the fourth must not appear in any rendered output. -/
def rsSample : List PeriodData :=
  [{ name := "Tonight", temperature := 55, temperatureUnit := "F",
     shortForecast := "Clear", windSpeed := "5 mph", windDirection := "NW" },
   { name := "Tuesday", temperature := 68, temperatureUnit := "F",
     shortForecast := "Sunny", windSpeed := "10 mph", windDirection := "W" },
   { name := "Tuesday Night", temperature := 50, temperatureUnit := "F",
     shortForecast := "Partly Cloudy", windSpeed := "5 mph", windDirection := "SW" },
   { name := "Wednesday", temperature := 70, temperatureUnit := "F",
     shortForecast := "Sunny", windSpeed := "10 mph", windDirection := "N" }]

/-- An NWS forecast payload carrying the four sample periods. -/
def forecastPayload : Json :=
  Json.obj [("properties", Json.obj [("periods", Json.arr (rsSample.map periodJson))])]

/-- A fully successful upstream world: geocoding matches, the points fetch
returns the points payload, the forecast fetch returns the periods. -/
def envForecast : Env :=
  { env0 with
      geocode := fun _ => Except.ok (some { latitude := "47.6", longitude := "-122.33" }),
      httpGetJson := fun url =>
        if url = "https://api.weather.gov/points/47.6,-122.33" then
          Except.ok pointsPayload
        else
          Except.ok forecastPayload }

/-- The exception sources named by the dispatcher's contract: the model
request itself raising, the `json.loads` of the first requested call's
payload raising, or the dispatched handling of that call raising (a missing
argument key or a raise out of `get_weather_forecast`). -/
def raisesDuring (env : Env) (query : String) (e : String) : Prop :=
  env.chat query = Except.error e ∨
  (∃ resp choice tc rest,
    env.chat query = Except.ok resp ∧
    resp.choices.head? = some choice ∧
    choice.message.tool_calls = some (tc :: rest) ∧
    (env.jsonLoads tc.function.arguments = Except.error e ∨
     (∃ args, env.jsonLoads tc.function.arguments = Except.ok args ∧
       handle_tool_call env tc = Except.error e)))

/-- The two top-level result strings of the dispatcher differ: one starts
with `E`, the other with `U`. -/
theorem errString_ne_unknown (e n : String) :
    "Error processing weather query: " ++ e ≠ "Unknown function: " ++ n := by
  intro h
  have h2 := congrArg String.data h
  simp [String.data_append] at h2

/-- C8: for every hostname, `get_ip_address` never raises: if resolution
succeeds it returns the sentence naming the resolved address, and if it
fails it returns the sentence naming the error. -/
theorem c8_get_ip_address_total (env : Env) (hostname : String) :
    (∀ ip, env.gethostbyname hostname = Except.ok ip →
      get_ip_address env hostname = "The IP address of " ++ hostname ++ " is " ++ ip) ∧
    (∀ e, env.gethostbyname hostname = Except.error e →
      get_ip_address env hostname =
        "Error getting IP address for " ++ hostname ++ ": " ++ e) := by
  constructor
  · intro ip h; simp [get_ip_address, h]
  · intro e h; simp [get_ip_address, h]

/-- C8 witness: a resolvable and an unresolvable hostname, evaluated. -/
theorem c8_witness :
    get_ip_address envDns "localhost" = "The IP address of localhost is 127.0.0.1" ∧
    get_ip_address env0 "invalid.invalid" =
      "Error getting IP address for invalid.invalid: [Errno -2] Name or service not known" := by
  constructor
  · exact (c8_get_ip_address_total envDns "localhost").1 "127.0.0.1" rfl
  · exact (c8_get_ip_address_total env0 "invalid.invalid").2
      "[Errno -2] Name or service not known" rfl

/-- C6: when geocoding finds no match, `get_weather_forecast` returns the
"Could not find coordinates" string carrying the supplied city and state,
and the result is the same for every forecast HTTP oracle (no forecast
call is consulted). -/
theorem c6_no_geocode_match (env : Env) (city state : String)
    (h : env.geocode (city ++ ", " ++ state ++ ", USA") = Except.ok none) :
    get_weather_forecast env city state =
      Except.ok ("Could not find coordinates for " ++ city ++ ", " ++ state) ∧
    ∀ http, get_weather_forecast { env with httpGetJson := http } city state =
      Except.ok ("Could not find coordinates for " ++ city ++ ", " ++ state) := by
  constructor
  · simp [get_weather_forecast, get_coordinates, h]
  · intro http; simp [get_weather_forecast, get_coordinates, h]

/-- C6 witness: a no-match city/state pair, evaluated. -/
theorem c6_witness :
    get_weather_forecast env0 "Nowhereville" "ZZ" =
      Except.ok "Could not find coordinates for Nowhereville, ZZ" := by
  have h := (c6_no_geocode_match env0 "Nowhereville" "ZZ" rfl).1
  simpa using h

/-- C3: when the model's response carries no tool-invocation request
(`tool_calls` is `None` or the empty list), the dispatcher's result is the
model's direct reply verbatim — including an absent (`None`) reply. -/
theorem c3_no_tool_calls (env : Env) (query : String) (resp : ChatResponse)
    (choice : Choice)
    (h1 : env.chat query = Except.ok resp)
    (h2 : resp.choices.head? = some choice)
    (h3 : choice.message.tool_calls = none ∨ choice.message.tool_calls = some []) :
    process_weather_query env query = choice.message.content := by
  rcases h3 with h3 | h3 <;>
    simp [process_weather_query, process_weather_query_body, h1, h2, h3]

/-- C3 witness: a plain text reply is passed through verbatim, and a null
reply comes back as `none`. -/
theorem c3_witness :
    process_weather_query envPlain "Say hello" = some "Hello!" ∧
    process_weather_query envNullReply "Say hello" = none := by
  constructor
  · exact c3_no_tool_calls envPlain "Say hello" respPlain
      { message := msgPlain } rfl rfl (Or.inl rfl)
  · exact c3_no_tool_calls envNullReply "Say hello" respNullReply
      { message := msgNullReply } rfl rfl (Or.inr rfl)

/-- C4: when the model's response requests one or more tool calls, the
dispatcher's result is determined by the first call alone (dispatched
through `handle_tool_call`, its raise caught at top level); the remaining
requested calls — universally quantified here and absent from the result —
are ignored. -/
theorem c4_first_tool_call_only (env : Env) (query : String) (resp : ChatResponse)
    (choice : Choice) (tc : ToolCall) (rest : List ToolCall)
    (h1 : env.chat query = Except.ok resp)
    (h2 : resp.choices.head? = some choice)
    (h3 : choice.message.tool_calls = some (tc :: rest)) :
    process_weather_query env query =
      (match handle_tool_call env tc with
       | Except.ok r => some r
       | Except.error e => some ("Error processing weather query: " ++ e)) := by
  simp only [process_weather_query, process_weather_query_body, h1, h2, h3]
  cases handle_tool_call env tc <;> simp

/-- C4 witness: a response with two requested calls; only the first
(`get_ip_address` on `example.com`) is serviced. -/
theorem c4_witness :
    process_weather_query envTwoCalls "ip of example.com" =
      some "The IP address of example.com is 127.0.0.1" := by
  have h := c4_first_tool_call_only envTwoCalls "ip of example.com" respTwoCalls
    { message := msgTwoCalls } tcIp [tcExtra] rfl rfl rfl
  simpa [handle_tool_call, envTwoCalls, envDns, env0, tcIp,
         get_ip_address, dictGet, pyStr] using h

/-- C5: when the first requested tool call names a tool outside the dispatch
table and its payload parses, the result is exactly the "Unknown function"
message carrying the requested name (whatever the lookup oracles are — no
local lookup function is consulted). -/
theorem c5_unknown_function (env : Env) (query : String) (resp : ChatResponse)
    (choice : Choice) (tc : ToolCall) (rest : List ToolCall) (args : Json)
    (h1 : env.chat query = Except.ok resp)
    (h2 : resp.choices.head? = some choice)
    (h3 : choice.message.tool_calls = some (tc :: rest))
    (h4 : env.jsonLoads tc.function.arguments = Except.ok args)
    (h5 : tc.function.name ≠ "get_weather_forecast")
    (h6 : tc.function.name ≠ "get_ip_address") :
    process_weather_query env query = some ("Unknown function: " ++ tc.function.name) := by
  simp [process_weather_query, process_weather_query_body, h1, h2, h3,
        handle_tool_call, h4, h5, h6]

/-- C5 witness: the unregistered tool name `get_time`, evaluated. -/
theorem c5_witness :
    process_weather_query envUnknownTool "time please" = some "Unknown function: get_time" := by
  have h := c5_unknown_function envUnknownTool "time please" respUnknownTool
    { message := msgUnknownTool } tcUnknown [] (Json.obj [])
    rfl rfl rfl rfl (by decide) (by decide)
  simpa [tcUnknown] using h

/-- C2: whenever the model request, the `json.loads` of the selected call's
payload, or the dispatched local handling raises with message `e`, the
dispatcher returns `some ("Error processing weather query: " ++ e)` instead
of raising. -/
theorem c2_exceptions_caught (env : Env) (query : String) (e : String)
    (h : raisesDuring env query e) :
    process_weather_query env query =
      some ("Error processing weather query: " ++ e) := by
  rcases h with h | ⟨resp, choice, tc, rest, h1, h2, h3, h4⟩
  · simp [process_weather_query, process_weather_query_body, h]
  · rcases h4 with h4 | ⟨args, hargs, h4⟩
    · simp [process_weather_query, process_weather_query_body, h1, h2, h3,
            handle_tool_call, h4]
    · simp [process_weather_query, process_weather_query_body, h1, h2, h3, h4]

/-- C2 witness: the model request raising, evaluated. -/
theorem c2_witness :
    raisesDuring env0 "Say hello" "APIConnectionError" ∧
    process_weather_query env0 "Say hello" =
      some "Error processing weather query: APIConnectionError" := by
  refine ⟨Or.inl rfl, ?_⟩
  have h := c2_exceptions_caught env0 "Say hello" "APIConnectionError" (Or.inl rfl)
  simpa using h

/-- C10: the payload is `json.loads`-parsed before the tool name is matched,
so a malformed payload yields the top-level error string whatever the
requested name is, and that result is never the "Unknown function" message. -/
theorem c10_parse_precedes_dispatch (env : Env) (query : String)
    (resp : ChatResponse) (choice : Choice) (tc : ToolCall) (rest : List ToolCall)
    (e : String)
    (h1 : env.chat query = Except.ok resp)
    (h2 : resp.choices.head? = some choice)
    (h3 : choice.message.tool_calls = some (tc :: rest))
    (hbad : env.jsonLoads tc.function.arguments = Except.error e) :
    process_weather_query env query =
      some ("Error processing weather query: " ++ e) ∧
    ∀ n, process_weather_query env query ≠ some ("Unknown function: " ++ n) := by
  have hmain : process_weather_query env query =
      some ("Error processing weather query: " ++ e) := by
    simp [process_weather_query, process_weather_query_body, h1, h2, h3,
          handle_tool_call, hbad]
  refine ⟨hmain, fun n hcontra => ?_⟩
  rw [hmain] at hcontra
  exact errString_ne_unknown e n (Option.some.inj hcontra)

/-- C10 witness: a registered tool name with a malformed payload, evaluated;
the result is the top-level error string, not an "Unknown function" message. -/
theorem c10_witness :
    process_weather_query envBadArgs "weather in Seattle" =
      some "Error processing weather query: Expecting value: line 1 column 1 (char 0)" ∧
    process_weather_query envBadArgs "weather in Seattle" ≠
      some "Unknown function: get_weather_forecast" := by
  have h := c10_parse_precedes_dispatch envBadArgs "weather in Seattle" respBadArgs
    { message := msgBadArgs } tcBadArgs [] "Expecting value: line 1 column 1 (char 0)"
    rfl rfl rfl rfl
  exact ⟨by simpa using h.1, by simpa using h.2 "get_weather_forecast"⟩

/-- C9: the lookup functions are deterministic in their upstream responses —
two environments whose geocoding, HTTP, and DNS oracles agree pointwise
produce textually identical outputs for identical inputs. -/
theorem c9_deterministic (env env' : Env) (city state hostname : String)
    (hg : ∀ q, env.geocode q = env'.geocode q)
    (hh : ∀ u, env.httpGetJson u = env'.httpGetJson u)
    (hd : ∀ n, env.gethostbyname n = env'.gethostbyname n) :
    get_weather_forecast env city state = get_weather_forecast env' city state ∧
    get_ip_address env hostname = get_ip_address env' hostname := by
  have hg' : env.geocode = env'.geocode := funext hg
  have hh' : env.httpGetJson = env'.httpGetJson := funext hh
  have hd' : env.gethostbyname = env'.gethostbyname := funext hd
  constructor
  · simp only [get_weather_forecast, get_coordinates, get_forecast, hg', hh']
  · simp only [get_ip_address, hd']

/-- C9 witness: two environments differing only in the chat oracle give the
same lookup outputs. -/
theorem c9_witness :
    get_weather_forecast env0 "Seattle" "WA" =
      get_weather_forecast envAltChat "Seattle" "WA" ∧
    get_ip_address env0 "localhost" = get_ip_address envAltChat "localhost" :=
  c9_deterministic env0 envAltChat "Seattle" "WA" "localhost"
    (fun _ => rfl) (fun _ => rfl) (fun _ => rfl)

/-- Unpacking `forecastRenderable`: a renderable payload carries
`properties.periods` as a list whose first three entries render. -/
theorem forecastRenderable_spec (j : Json) (h : forecastRenderable j = true) :
    ∃ props ps body, dictGet j "properties" = Except.ok props ∧
      dictGet props "periods" = Except.ok (Json.arr ps) ∧
      formatPeriods (ps.take 3) = Except.ok body := by
  unfold forecastRenderable at h
  split at h
  · exact absurd h (by simp)
  · rename_i props hp
    split at h
    · exact absurd h (by simp)
    · rename_i ps hpp
      split at h
      · rename_i body hfmt
        exact ⟨props, ps, body, hp, hpp, hfmt⟩
      · exact absurd h (by simp)
    · exact absurd h (by simp)

/-- C1 counterexample: `get_weather_forecast` does raise to its caller —
when the geocoding call raises, and when a truthy forecast payload lacks
the `periods` key under `properties` (a `KeyError` outside any `try`). -/
theorem c1_counterexample :
    get_weather_forecast envGeoRaises "Seattle" "WA" =
      Except.error "ConnectionTimedOut" ∧
    get_weather_forecast envBadPayload "Seattle" "WA" = Except.error "'periods'" :=
  ⟨rfl, rfl⟩

/-- C1 (amended): `get_weather_forecast` returns a string provided the
geocoding call returns normally and any truthy forecast payload it obtains
carries `properties.periods` as a list whose first three entries render;
outside those conditions the raise propagates to the caller. -/
theorem c1_returns_string_amended (env : Env) (city state : String)
    (hgeo : ∃ copt, env.geocode (city ++ ", " ++ state ++ ", USA") = Except.ok copt)
    (hfc : ∀ coords j,
      env.geocode (city ++ ", " ++ state ++ ", USA") = Except.ok (some coords) →
      get_forecast env coords.latitude coords.longitude = some j →
      j.truthy = true → forecastRenderable j = true) :
    ∃ s, get_weather_forecast env city state = Except.ok s := by
  obtain ⟨copt, hg⟩ := hgeo
  cases copt with
  | none =>
    exact ⟨"Could not find coordinates for " ++ city ++ ", " ++ state,
      by simp [get_weather_forecast, get_coordinates, hg]⟩
  | some location =>
    cases hf : get_forecast env location.latitude location.longitude with
    | none =>
      exact ⟨"Could not get forecast for " ++ city ++ ", " ++ state,
        by simp [get_weather_forecast, get_coordinates, hg, hf]⟩
    | some forecast =>
      cases ht : forecast.truthy with
      | false =>
        exact ⟨"Could not get forecast for " ++ city ++ ", " ++ state,
          by simp [get_weather_forecast, get_coordinates, hg, hf, ht]⟩
      | true =>
        obtain ⟨props, ps, body, hp, hpp, hfmt⟩ :=
          forecastRenderable_spec forecast (hfc location forecast hg hf ht)
        exact ⟨"Weather forecast for " ++ city ++ ", " ++ state ++ ":\n\n" ++ body,
          by simp [get_weather_forecast, get_coordinates, hg, hf, ht, hp, hpp, hfmt]⟩

/-- C1 witness: the amended guarantee, evaluated where geocoding finds no
match. -/
theorem c1_witness :
    ∃ s, get_weather_forecast env0 "Nowhereville" "ZZ" = Except.ok s :=
  c1_returns_string_amended env0 "Nowhereville" "ZZ" ⟨none, rfl⟩
    (by intro coords j hg; simp [env0] at hg)

/-- Each well-formed period object renders to exactly the spec's block. -/
theorem formatPeriod_periodJson (p : PeriodData) :
    formatPeriod (periodJson p) = Except.ok (specPeriodBlock p) := rfl

/-- The accumulation loop over well-formed period objects yields the spec's
concatenation of blocks, in order. -/
theorem formatPeriods_map (l : List PeriodData) :
    formatPeriods (l.map periodJson) = Except.ok (specBlocksConcat l) := by
  induction l with
  | nil => rfl
  | cons p ps ih =>
    simp [formatPeriods, formatPeriod_periodJson, ih, specBlocksConcat,
          Bind.bind, Except.bind, pure, Except.pure]

/-- C7: on a successful lookup whose payload carries well-formed periods,
the output is the header followed by the blocks of exactly the first three
periods (fewer if fewer), each block carrying name, temperature with unit,
conditions, and wind speed and direction, concatenated in upstream order
with a blank line after each. -/
theorem c7_first_three_periods (env : Env) (city state : String)
    (coords : Coordinates) (forecast props : Json) (rs : List PeriodData)
    (hc : env.geocode (city ++ ", " ++ state ++ ", USA") = Except.ok (some coords))
    (hf : get_forecast env coords.latitude coords.longitude = some forecast)
    (ht : forecast.truthy = true)
    (hp : dictGet forecast "properties" = Except.ok props)
    (hpp : dictGet props "periods" = Except.ok (Json.arr (rs.map periodJson))) :
    get_weather_forecast env city state =
      Except.ok ("Weather forecast for " ++ city ++ ", " ++ state ++ ":\n\n" ++
                 specBlocksConcat (rs.take 3)) := by
  have htake : (rs.map periodJson).take 3 = (rs.take 3).map periodJson :=
    (List.map_take periodJson rs 3).symm
  simp only [get_weather_forecast, get_coordinates, hc]
  simp only [hf, ht, Bool.true_eq_false, if_false, hp, hpp, htake,
             formatPeriods_map]

/-- C7 witness: four upstream periods; the rendered output carries exactly
the first three blocks. -/
theorem c7_witness :
    get_weather_forecast envForecast "Seattle" "WA" =
      Except.ok ("Weather forecast for Seattle, WA:\n\n" ++
        "Tonight:\nTemperature: 55Â°F\nConditions: Clear\nWind: 5 mph NW\n\n" ++
        "Tuesday:\nTemperature: 68Â°F\nConditions: Sunny\nWind: 10 mph W\n\n" ++
        "Tuesday Night:\nTemperature: 50Â°F\nConditions: Partly Cloudy\nWind: 5 mph SW\n\n") := by
  have h := c7_first_three_periods envForecast "Seattle" "WA"
    { latitude := "47.6", longitude := "-122.33" } forecastPayload
    (Json.obj [("periods", Json.arr (rsSample.map periodJson))]) rsSample
    rfl rfl rfl rfl rfl
  rw [h]
  rfl

end WeatherApp
